import Mathlib

/-!
Shallow embedding of `pkg/cmd/adm/restart.go` (deployment restart
orchestrator).  The Kubernetes client, the kubectl rollout sub-commands and
the confirmation prompt are external collaborators; they are modelled as
explicit behaviour oracles (which call fails, and with what message), while
the control flow of `restart`, `restartDeployment`, `deletePods`,
`restartNonOlmDeployments`, `checkRolloutStatus` and
`getExistingDeployments` is translated statement by statement from the Go
source.  Every observable cluster interaction is recorded in an event
trace.
-/

/-- Labels (and `matchLabels` selectors) are finite key/value maps, modelled
as association lists.  `metav1.LabelSelector` / `runtimeclient.MatchingLabels`
matching: every selector pair must be present among the labels. -/
def matchesLabels (lbls sel : List (String × String)) : Bool :=
  sel.all (fun kv => lbls.lookup kv.1 == some kv.2)

/-- Embeds `appsv1.Deployment`: the fields `restart.go` reads — name,
metadata labels, and `Spec.Selector` (its `matchLabels`). -/
structure Deployment where
  name : String
  labels : List (String × String)
  selector : List (String × String)
deriving Repr, DecidableEq

/-- Embeds `corev1.Pod`: name and labels (what `deletePods` matches on). -/
structure Pod where
  name : String
  labels : List (String × String)
deriving Repr, DecidableEq

/-- The live content of the operator namespace, read fresh per run. -/
structure ClusterState where
  deployments : List Deployment
  pods : List Pod
deriving Repr, DecidableEq

/-- Failure oracle for the controller-runtime client: which List/Delete
call fails and with what error message (`none` = the call succeeds). -/
structure ClientBehavior where
  listOlmErr : Option String
  listNonOlmErr : Option String
  listPodsErr : String → Option String
  deleteErr : String → Option String

/-- Failure oracle for the kubectl rollout collaborators
(`RolloutRestartOptions` / `RolloutStatusOptions`): outcomes of
`Complete`, `Validate`, `RunRestart` and `Run`. -/
structure RolloutBehavior where
  statusCompleteErr : Option String
  statusValidateErr : Option String
  statusRunErr : Option String
  restartCompleteErr : Option String
  restartValidateErr : Option String
  restartRunErr : String → Option String

/-- Observable actions of one orchestration run, in execution order. -/
inductive Event where
  | askConfirm (msg : String)
  | deletePod (podName : String)
  | restartTrigger (ns deploymentName : String)
  | waitRollout (ns selector : String)
deriving Repr, DecidableEq

/-- A mutation is a pod deletion or a rollout-restart trigger (a patch of
the deployment spec); prompting and status-watching mutate nothing. -/
def Event.isMutation : Event → Bool
  | .deletePod _ => true
  | .restartTrigger _ _ => true
  | _ => false

/-- The mutations contained in a trace. -/
def mutations (tr : List Event) : List Event :=
  tr.filter Event.isMutation

/-- How a Go function call ends: normal `nil` return, normal error return,
or a `panic` that unwinds the process. -/
inductive Outcome where
  | ok : Outcome
  | err (msg : String) : Outcome
  | panicked (msg : String) : Outcome
deriving Repr, DecidableEq

/-- The OLM ownership label used by `getExistingDeployments`. -/
def olmSelector : List (String × String) :=
  [("olm.owner.kind", "ClusterServiceVersion")]

/-- The direct-provider label used by `getExistingDeployments`. -/
def providerSelector : List (String × String) :=
  [("provider", "codeready-toolchain")]

/-- Deployments of the namespace matching the OLM ownership label. -/
def olmFilter (st : ClusterState) : List Deployment :=
  st.deployments.filter (fun d => matchesLabels d.labels olmSelector)

/-- Deployments of the namespace matching the direct-provider label. -/
def nonOlmFilter (st : ClusterState) : List Deployment :=
  st.deployments.filter (fun d => matchesLabels d.labels providerSelector)

/-- Embeds `getExistingDeployments`: two label-filtered List calls.  The Go
function allocates both result lists with `&appsv1.DeploymentList{}`, so on
success the returned pointers are never nil — modelled by always returning
`some` (of a possibly empty list); `none` models a nil pointer. -/
def getExistingDeployments (beh : ClientBehavior) (st : ClusterState) :
    Except String (Option (List Deployment) × Option (List Deployment)) :=
  match beh.listOlmErr with
  | some e => .error e
  | none =>
    match beh.listNonOlmErr with
    | some e => .error e
    | none => .ok (some (olmFilter st), some (nonOlmFilter st))

/-- The label selector hard-coded into `checkRolloutStatus`
(`cmd.LabelSelector = "provider=codeready-toolchain"`). -/
def fixedSelector : String := "provider=codeready-toolchain"

/-- Embeds `checkRolloutStatus`: `Complete` and `Validate` failures `panic`;
otherwise `Run` performs the rollout-status wait (recorded as an event)
and its error, if any, is returned. -/
def checkRolloutStatus (rb : RolloutBehavior) (ns : String) :
    Outcome × List Event :=
  match rb.statusCompleteErr with
  | some e => (.panicked e, [])
  | none =>
    match rb.statusValidateErr with
    | some e => (.panicked e, [])
    | none =>
      match rb.statusRunErr with
      | some e => (.err e, [.waitRollout ns fixedSelector])
      | none => (.ok, [.waitRollout ns fixedSelector])

/-- Embeds `restartNonOlmDeployments`: `Complete` and `Validate` failures
`panic`;
otherwise `RunRestart` applies the rollout-restart trigger (recorded as an
event) and its error, if any, is returned. -/
def restartNonOlmDeployments (rb : RolloutBehavior) (ns : String)
    (d : Deployment) : Outcome × List Event :=
  match rb.restartCompleteErr with
  | some e => (.panicked e, [])
  | none =>
    match rb.restartValidateErr with
    | some e => (.panicked e, [])
    | none =>
      match rb.restartRunErr d.name with
      | some e => (.err e, [.restartTrigger ns d.name])
      | none => (.ok, [.restartTrigger ns d.name])

/-- Go's error-propagation idiom (run a call, return its error if any)
followed by the next call: when the first result is `ok` its events are
followed by the continuation's result; otherwise the first result is
returned unchanged (a panic likewise unwinds past the continuation). -/
def seqTrace (r k : Outcome × List Event) : Outcome × List Event :=
  match r with
  | (.ok, tr) => (k.1, tr ++ k.2)
  | (o, tr) => (o, tr)

/-- The pods the client's List call returns for a deployment's
`Spec.Selector` in `deletePods`. -/
def selectedPods (st : ClusterState) (d : Deployment) : List Pod :=
  st.pods.filter (fun p => matchesLabels p.labels d.selector)

/-- The pod-deletion loop of `deletePods`: delete each listed pod in
order, returning the first deletion error immediately. -/
def deletePodsLoop (beh : ClientBehavior) : List Pod → Outcome × List Event
  | [] => (.ok, [])
  | p :: rest =>
    match beh.deleteErr p.name with
    | some e => (.err e, [])
    | none =>
      let r := deletePodsLoop beh rest
      (r.1, .deletePod p.name :: r.2)

/-- Embeds `deletePods`: list the deployment's pods by selector, delete
them sequentially, then check the rollout status. -/
def deletePods (beh : ClientBehavior) (rb : RolloutBehavior)
    (st : ClusterState) (d : Deployment) (ns : String) :
    Outcome × List Event :=
  match beh.listPodsErr d.name with
  | some e => (.err e, [])
  | none =>
    seqTrace (deletePodsLoop beh (selectedPods st d))
      (checkRolloutStatus rb ns)

/-- The `for _, olmDeployment := range olmDeploymentList.Items` loop of
`restartDeployment`: recycle each OLM deployment, aborting on the first
error. -/
def forEachOlm (beh : ClientBehavior) (rb : RolloutBehavior)
    (st : ClusterState) (ns : String) : List Deployment → Outcome × List Event
  | [] => (.ok, [])
  | d :: rest =>
    seqTrace (deletePods beh rb st d ns) (forEachOlm beh rb st ns rest)

/-- The `for _, nonOlmDeployment := range nonOlmDeploymentlist.Items` loop
of `restartDeployment`: trigger a rollout restart, then check the rollout
status, aborting on the first error. -/
def forEachNonOlm (rb : RolloutBehavior) (ns : String) :
    List Deployment → Outcome × List Event
  | [] => (.ok, [])
  | d :: rest =>
    seqTrace (restartNonOlmDeployments rb ns d)
      (seqTrace (checkRolloutStatus rb ns) (forEachNonOlm rb ns rest))

/-- Embeds `restartDeployment`: discovery, nil check on the OLM list, the
OLM recycle loop, nil check on the non-OLM list, the non-OLM restart loop.
The misspelling "deploymont" is the source's. -/
def restartDeployment (beh : ClientBehavior) (rb : RolloutBehavior)
    (st : ClusterState) (ns : String) : Outcome × List Event :=
  match getExistingDeployments beh st with
  | .error e => (.err e, [])
  | .ok (olmOpt, nonOlmOpt) =>
    match olmOpt with
    | none => (.err ("OLM based deploymont not found in " ++ ns), [])
    | some olmList =>
      seqTrace (forEachOlm beh rb st ns olmList)
        (match nonOlmOpt with
         | none => (.err ("non-OLM based deploymont not found in " ++ ns), [])
         | some nonOlmList => forEachNonOlm rb ns nonOlmList)

/-- Cluster config as resolved by `configuration.LoadClusterConfig` (the
fields `restart` reads). -/
structure Config where
  token : String
  serverAPI : String
  operatorNamespace : String
deriving Repr, DecidableEq

/-- The confirmation prompt text built with `ioutils.WithMessagef` in
`restart` (\x27 is the single-quote character of the format string). -/
def confirmMessage (op ns : String) : String :=
  "restart the \x27" ++ op ++ "\x27 operator in namespace \x27" ++ ns ++ "\x27"

/-- The error returned by `restart` when no operator type is given. -/
def missingOperatorTypeMsg : String :=
  "please mention one of the following operator names to restart: host | member-1 | member-2"

/-- Embeds `restart`: config resolution, client construction, the
empty-argument check, the confirmation gate, then `restartDeployment`.
Here `cfgRes` is the
collaborator result of `LoadClusterConfig`, `clientErr` that of
`ctx.NewClient`, and `confirm` the operator's boolean answer to
`AskForConfirmation`. -/
def restart (cfgRes : Except String Config) (clientErr : Option String)
    (confirm : Bool) (beh : ClientBehavior) (rb : RolloutBehavior)
    (st : ClusterState) (operatorType : List String) : Outcome × List Event :=
  match cfgRes with
  | .error e => (.err e, [])
  | .ok cfg =>
    match clientErr with
    | some e => (.err e, [])
    | none =>
      match operatorType with
      | [] => (.err missingOperatorTypeMsg, [])
      | op :: _ =>
        if confirm then
          let r := restartDeployment beh rb st cfg.operatorNamespace
          (r.1, .askConfirm (confirmMessage op cfg.operatorNamespace) :: r.2)
        else
          (.ok, [.askConfirm (confirmMessage op cfg.operatorNamespace)])

/-- Pod-deletion events for a list of pods, in list order. -/
def deletionEvents (ps : List Pod) : List Event :=
  ps.map (fun p => .deletePod p.name)

/-- Transcribed from the spec (section 2 control flow): the recycle step
for one lifecycle-managed deployment — delete each of its pods, then wait
for rollout. -/
def recycleBlock (st : ClusterState) (ns : String) (d : Deployment) :
    List Event :=
  deletionEvents (selectedPods st d) ++ [.waitRollout ns fixedSelector]

/-- Transcribed from the spec (section 2 control flow): the restart step
for one directly-owned deployment — trigger restart, then wait for
rollout. -/
def restartBlock (ns : String) (d : Deployment) : List Event :=
  [.restartTrigger ns d.name, .waitRollout ns fixedSelector]

/-- Concatenation of the recycle blocks of a deployment list, in order. -/
def recyclePlan (st : ClusterState) (ns : String) (ds : List Deployment) :
    List Event :=
  (ds.map (recycleBlock st ns)).flatten

/-- Concatenation of the restart blocks of a deployment list, in order. -/
def restartPlan (ns : String) (ds : List Deployment) : List Event :=
  (ds.map (restartBlock ns)).flatten

/-- Transcribed from the spec (section 2 control flow): the full ideal
event sequence of one orchestration run — every lifecycle-managed recycle
block, in discovery order, then every directly-owned restart block. -/
def orchestrationPlan (st : ClusterState) (ns : String) : List Event :=
  recyclePlan st ns (olmFilter st) ++ restartPlan ns (nonOlmFilter st)

/-- Client behaviour on which every cluster call succeeds. -/
def noFailClient : ClientBehavior :=
  ⟨none, none, fun _ => none, fun _ => none⟩

/-- Rollout behaviour on which every kubectl sub-operation succeeds. -/
def noFailRollout : RolloutBehavior :=
  ⟨none, none, none, none, none, fun _ => none⟩

/-- Client behaviour on which deleting the pod `host-operator-2` fails
with "boom" and every other call succeeds. -/
def failSecondDelete : ClientBehavior :=
  ⟨none, none, fun _ => none,
   fun n => if n == "host-operator-2" then some "boom" else none⟩

/-- Rollout behaviour on which both `Complete` calls fail. -/
def failingRollout : RolloutBehavior :=
  ⟨some "bad status request", none, none,
   some "bad restart request", none, fun _ => none⟩

/-- The lifecycle-managed (OLM) deployment of the test scenario. -/
def hostOperator : Deployment :=
  ⟨"host-operator",
   [("olm.owner.kind", "ClusterServiceVersion")],
   [("name", "host-operator")]⟩

/-- The directly-owned (non-OLM) deployment of the test scenario. -/
def registrationService : Deployment :=
  ⟨"registration-service",
   [("provider", "codeready-toolchain")],
   [("name", "registration-service")]⟩

/-- First pod of `hostOperator`. -/
def hostPod1 : Pod := ⟨"host-operator-1", [("name", "host-operator")]⟩

/-- Second pod of `hostOperator`. -/
def hostPod2 : Pod := ⟨"host-operator-2", [("name", "host-operator")]⟩

/-- Third pod of `hostOperator`. -/
def hostPod3 : Pod := ⟨"host-operator-3", [("name", "host-operator")]⟩

/-- The scenario namespace: one OLM deployment with three pods and one
non-OLM deployment. -/
def demoState : ClusterState :=
  ⟨[hostOperator, registrationService], [hostPod1, hostPod2, hostPod3]⟩

/-- A namespace with no deployments at all: both discovery lists empty. -/
def emptyState : ClusterState := ⟨[], []⟩

/-- A namespace whose OLM discovery list is empty but whose non-OLM list
is not. -/
def onlyNonOlmState : ClusterState := ⟨[registrationService], []⟩

/-- A deployment carrying both the OLM ownership label and the provider
label. -/
def dualDeployment : Deployment :=
  ⟨"host-operator",
   [("olm.owner.kind", "ClusterServiceVersion"),
    ("provider", "codeready-toolchain")],
   [("name", "host-operator")]⟩

/-- A namespace containing only `dualDeployment`. -/
def dualState : ClusterState := ⟨[dualDeployment], []⟩

/-- A resolved cluster config for the scenario. -/
def hostConfig : Config :=
  ⟨"token", "https://api.example.com", "host-operator-ns"⟩

/-! Generic list-prefix helper lemmas. -/

/-- Reflexivity of the list-prefix relation. -/
theorem pre_refl {α : Type} (l : List α) : l <+: l :=
  ⟨[], List.append_nil l⟩

/-- The empty list is a prefix of every list. -/
theorem pre_nil {α : Type} (l : List α) : [] <+: l := ⟨l, rfl⟩

/-- A list is a prefix of itself followed by anything. -/
theorem pre_self_app {α : Type} (l t : List α) : l <+: l ++ t := ⟨t, rfl⟩

/-- Transitivity of the list-prefix relation. -/
theorem pre_trans {α : Type} {l₁ l₂ l₃ : List α} (h₁ : l₁ <+: l₂)
    (h₂ : l₂ <+: l₃) : l₁ <+: l₃ := by
  obtain ⟨t₁, ht₁⟩ := h₁
  obtain ⟨t₂, ht₂⟩ := h₂
  exact ⟨t₁ ++ t₂, by rw [← List.append_assoc, ht₁, ht₂]⟩

/-- Consing the same head preserves the prefix relation. -/
theorem pre_cons {α : Type} (a : α) {l₁ l₂ : List α} (h : l₁ <+: l₂) :
    a :: l₁ <+: a :: l₂ := by
  obtain ⟨t, ht⟩ := h
  exact ⟨t, by rw [List.cons_append, ht]⟩

/-- Appending the same list on the left preserves the prefix relation. -/
theorem pre_app_left {α : Type} (a : List α) {l₁ l₂ : List α}
    (h : l₁ <+: l₂) : a ++ l₁ <+: a ++ l₂ := by
  obtain ⟨t, ht⟩ := h
  exact ⟨t, by rw [List.append_assoc, ht]⟩

/-- Members of a prefix are members of the whole list. -/
theorem mem_of_pre {α : Type} {l₁ l₂ : List α} {a : α} (h : l₁ <+: l₂)
    (ha : a ∈ l₁) : a ∈ l₂ := by
  obtain ⟨t, ht⟩ := h
  exact ht ▸ List.mem_append.mpr (Or.inl ha)

/-- C1 (code bug evidence): on a namespace where both discovery lists are
empty, `restartDeployment` returns `ok` with no error and no event, and on
a namespace where only the OLM list is empty it even performs mutations
(a restart trigger) and still returns `ok` — the not-found branches test
pointer nilness, which never holds on success, so the claimed
`NotFoundError` is unreachable there. -/
theorem empty_lists_return_ok :
    olmFilter emptyState = [] ∧ nonOlmFilter emptyState = [] ∧
    restartDeployment noFailClient noFailRollout emptyState
      "host-operator-ns" = (Outcome.ok, []) ∧
    olmFilter onlyNonOlmState = [] ∧
    restartDeployment noFailClient noFailRollout onlyNonOlmState
      "host-operator-ns" =
      (Outcome.ok,
       [Event.restartTrigger "host-operator-ns" "registration-service",
        Event.waitRollout "host-operator-ns" fixedSelector]) :=
  ⟨rfl, rfl, rfl, rfl, rfl⟩

/-- C2 counterexample: a deployment carrying both the OLM ownership label
and the provider label is returned in both discovery lists, refuting the
claim that no deployment appears in both. -/
theorem dual_labeled_deployment_in_both :
    getExistingDeployments noFailClient dualState =
      Except.ok (some [dualDeployment], some [dualDeployment]) := rfl

/-- C2 amended: discovery returns, for each class, exactly the deployments
of the namespace matching that class label; a deployment appears in the
OLM list iff it carries the OLM ownership label and in the non-OLM list
iff it carries the provider label, so the two lists are disjoint only when
no deployment carries both labels. -/
theorem ownership_class_membership (st : ClusterState) (d : Deployment) :
    getExistingDeployments noFailClient st =
      Except.ok (some (olmFilter st), some (nonOlmFilter st)) ∧
    (d ∈ olmFilter st ↔
      d ∈ st.deployments ∧ matchesLabels d.labels olmSelector = true) ∧
    (d ∈ nonOlmFilter st ↔
      d ∈ st.deployments ∧ matchesLabels d.labels providerSelector = true) := by
  refine ⟨rfl, ?_, ?_⟩ <;> simp [olmFilter, nonOlmFilter, List.mem_filter]

/-- C3: when the confirmation answer is not affirmative, `restart` returns
`nil` and its trace holds only the confirmation prompt — no pod deletion
and no deployment patch. -/
theorem declined_confirmation_noop (cfg : Config) (beh : ClientBehavior)
    (rb : RolloutBehavior) (st : ClusterState) (op : String)
    (rest : List String) :
    restart (Except.ok cfg) none false beh rb st (op :: rest) =
      (Outcome.ok,
       [Event.askConfirm (confirmMessage op cfg.operatorNamespace)]) ∧
    mutations
      [Event.askConfirm (confirmMessage op cfg.operatorNamespace)] = [] :=
  ⟨rfl, rfl⟩

/-- C5: on the scenario state (one OLM deployment with three pods, one
non-OLM deployment), with affirmative confirmation and all calls
succeeding, the run performs exactly three pod deletions, one
rollout-status wait, one restart trigger on `registration-service`, a
second rollout-status wait, and returns `nil`. -/
theorem demo_scenario_exact_trace :
    restart (Except.ok hostConfig) none true noFailClient noFailRollout
      demoState ["host"] =
      (Outcome.ok,
       [Event.askConfirm (confirmMessage "host" "host-operator-ns"),
        Event.deletePod "host-operator-1",
        Event.deletePod "host-operator-2",
        Event.deletePod "host-operator-3",
        Event.waitRollout "host-operator-ns" fixedSelector,
        Event.restartTrigger "host-operator-ns" "registration-service",
        Event.waitRollout "host-operator-ns" fixedSelector]) := rfl

/-- C7: whenever `Complete` fails — or `Complete` succeeds and `Validate`
fails — the rollout-status and rollout-restart operations end in a panic
carrying that error, with no event and no normal error return. -/
theorem validation_failure_panics (rb : RolloutBehavior) (ns : String)
    (d : Deployment) :
    (∀ e, rb.statusCompleteErr = some e →
      checkRolloutStatus rb ns = (Outcome.panicked e, [])) ∧
    (∀ e, rb.statusCompleteErr = none → rb.statusValidateErr = some e →
      checkRolloutStatus rb ns = (Outcome.panicked e, [])) ∧
    (∀ e, rb.restartCompleteErr = some e →
      restartNonOlmDeployments rb ns d = (Outcome.panicked e, [])) ∧
    (∀ e, rb.restartCompleteErr = none → rb.restartValidateErr = some e →
      restartNonOlmDeployments rb ns d = (Outcome.panicked e, [])) := by
  refine ⟨fun e h => ?_, fun e h h2 => ?_, fun e h => ?_, fun e h h2 => ?_⟩ <;>
    simp [checkRolloutStatus, restartNonOlmDeployments, h] <;> simp [h2]

/-- Witness for C7 at a concrete behaviour with failing `Complete`
calls. -/
theorem validation_failure_panics_witness :
    checkRolloutStatus failingRollout "host-operator-ns" =
      (Outcome.panicked "bad status request", []) ∧
    restartNonOlmDeployments failingRollout "host-operator-ns"
      registrationService = (Outcome.panicked "bad restart request", []) :=
  ⟨(validation_failure_panics failingRollout "host-operator-ns"
      registrationService).1 "bad status request" rfl,
   (validation_failure_panics failingRollout "host-operator-ns"
      registrationService).2.2.1 "bad restart request" rfl⟩

/-- C9: with config resolution and client construction succeeding, calling
`restart` with no operator-type argument returns the error naming the
allowed operator types (host | member-1 | member-2) and produces no event:
no confirmation prompt, no pod deletion, no deployment patch. -/
theorem empty_operator_type_errors (cfg : Config) (confirm : Bool)
    (beh : ClientBehavior) (rb : RolloutBehavior) (st : ClusterState) :
    restart (Except.ok cfg) none confirm beh rb st [] =
      (Outcome.err missingOperatorTypeMsg, []) := rfl

/-- C10: the operator-type value is never validated: for any two non-empty
argument lists the outcome and the whole trace after the confirmation
prompt coincide, and the run reaches the confirmation prompt, whose text
is the only place the value appears. -/
theorem operator_type_not_validated (cfg : Config) (confirm : Bool)
    (beh : ClientBehavior) (rb : RolloutBehavior) (st : ClusterState)
    (a b : String) (as bs : List String) :
    (restart (Except.ok cfg) none confirm beh rb st (a :: as)).1 =
      (restart (Except.ok cfg) none confirm beh rb st (b :: bs)).1 ∧
    (restart (Except.ok cfg) none confirm beh rb st (a :: as)).2.tail =
      (restart (Except.ok cfg) none confirm beh rb st (b :: bs)).2.tail ∧
    (restart (Except.ok cfg) none confirm beh rb st (a :: as)).2.head? =
      some (Event.askConfirm (confirmMessage a cfg.operatorNamespace)) := by
  cases confirm <;> exact ⟨rfl, rfl, rfl⟩

/-- Sequencing propagates: the combined trace is a prefix of the two
plans' concatenation whenever each part's trace is a prefix of its plan
and an `ok` first part realises its plan exactly. -/
theorem seqTrace_trace_le {r : Outcome × List Event} {pr : List Event}
    (k : Outcome × List Event) {pk : List Event}
    (hrok : r.1 = Outcome.ok → r.2 = pr) (hr : r.2 <+: pr)
    (hk : k.2 <+: pk) :
    (seqTrace r k).2 <+: pr ++ pk := by
  rcases r with ⟨o, tr⟩
  have hr2 : tr <+: pr := hr
  cases o with
  | ok =>
    have h2 : tr = pr := hrok rfl
    show tr ++ k.2 <+: pr ++ pk
    rw [h2]
    exact pre_app_left pr hk
  | err e =>
    show tr <+: pr ++ pk
    exact pre_trans hr2 (pre_self_app pr pk)
  | panicked e =>
    show tr <+: pr ++ pk
    exact pre_trans hr2 (pre_self_app pr pk)

/-- Sequencing realises both plans exactly when the combined outcome is
`ok` and each part realises its plan on its own `ok`. -/
theorem seqTrace_ok_trace {r : Outcome × List Event} {pr : List Event}
    (k : Outcome × List Event) {pk : List Event}
    (hrok : r.1 = Outcome.ok → r.2 = pr)
    (hkok : k.1 = Outcome.ok → k.2 = pk)
    (h : (seqTrace r k).1 = Outcome.ok) :
    (seqTrace r k).2 = pr ++ pk := by
  rcases r with ⟨o, tr⟩
  cases o with
  | ok =>
    have h1 : k.1 = Outcome.ok := h
    have h2 : tr = pr := hrok rfl
    show tr ++ k.2 = pr ++ pk
    rw [h2, hkok h1]
  | err e =>
    have h' : Outcome.err e = Outcome.ok := h
    exact Outcome.noConfusion h'
  | panicked e =>
    have h' : Outcome.panicked e = Outcome.ok := h
    exact Outcome.noConfusion h'

/-- The pod-deletion loop's trace is a prefix of the deletion events of
the whole pod list. -/
theorem deletePodsLoop_trace_le (beh : ClientBehavior) (ps : List Pod) :
    (deletePodsLoop beh ps).2 <+: deletionEvents ps := by
  induction ps with
  | nil => exact pre_nil _
  | cons p rest ih =>
    simp only [deletePodsLoop]
    cases beh.deleteErr p.name with
    | some e => exact pre_nil _
    | none =>
      show Event.deletePod p.name :: (deletePodsLoop beh rest).2 <+:
        Event.deletePod p.name :: deletionEvents rest
      exact pre_cons _ ih

/-- On an `ok` outcome, the pod-deletion loop deleted every listed pod. -/
theorem deletePodsLoop_ok_trace (beh : ClientBehavior) (ps : List Pod)
    (h : (deletePodsLoop beh ps).1 = Outcome.ok) :
    (deletePodsLoop beh ps).2 = deletionEvents ps := by
  induction ps with
  | nil => rfl
  | cons p rest ih =>
    simp only [deletePodsLoop] at h ⊢
    cases hd : beh.deleteErr p.name with
    | some e => simp [hd] at h
    | none =>
      simp only [hd] at h ⊢
      have h' : (deletePodsLoop beh rest).1 = Outcome.ok := h
      show Event.deletePod p.name :: (deletePodsLoop beh rest).2 =
        Event.deletePod p.name :: deletionEvents rest
      rw [ih h']

/-- When every deletion before the k-th pod succeeds and the k-th fails,
the loop returns that error having deleted exactly the earlier pods. -/
theorem deletePodsLoop_fail (beh : ClientBehavior) (e : String)
    (good rest : List Pod) (p : Pod)
    (hgood : ∀ q ∈ good, beh.deleteErr q.name = none)
    (hfail : beh.deleteErr p.name = some e) :
    deletePodsLoop beh (good ++ p :: rest) =
      (Outcome.err e, deletionEvents good) := by
  induction good with
  | nil =>
    simp only [List.nil_append, deletePodsLoop, hfail]
    rfl
  | cons q qs ih =>
    have hq : beh.deleteErr q.name = none := hgood q (List.mem_cons_self q qs)
    have ih' := ih (fun x hx => hgood x (List.mem_cons_of_mem q hx))
    simp only [List.cons_append, deletePodsLoop, hq, List.append_eq, ih']
    rfl

/-- The status check's trace is a prefix of the single fixed-selector
wait event. -/
theorem checkRolloutStatus_trace_le (rb : RolloutBehavior) (ns : String) :
    (checkRolloutStatus rb ns).2 <+: [Event.waitRollout ns fixedSelector] := by
  simp only [checkRolloutStatus]
  cases rb.statusCompleteErr with
  | some e => exact pre_nil _
  | none =>
    cases rb.statusValidateErr with
    | some e => exact pre_nil _
    | none =>
      cases rb.statusRunErr with
      | some e => exact pre_refl _
      | none => exact pre_refl _

/-- On an `ok` outcome the status check performed exactly one
fixed-selector wait. -/
theorem checkRolloutStatus_ok_trace (rb : RolloutBehavior) (ns : String)
    (h : (checkRolloutStatus rb ns).1 = Outcome.ok) :
    (checkRolloutStatus rb ns).2 = [Event.waitRollout ns fixedSelector] := by
  simp only [checkRolloutStatus] at h ⊢
  cases h1 : rb.statusCompleteErr with
  | some e => simp [h1] at h
  | none =>
    simp only [h1] at h ⊢
    cases h2 : rb.statusValidateErr with
    | some e => simp [h2] at h
    | none =>
      simp only [h2] at h ⊢
      cases h3 : rb.statusRunErr with
      | some e => simp [h3] at h
      | none => simp only [h3]

/-- The non-OLM restart's trace is a prefix of the single trigger
event. -/
theorem restartNonOlm_trace_le (rb : RolloutBehavior) (ns : String)
    (d : Deployment) :
    (restartNonOlmDeployments rb ns d).2 <+:
      [Event.restartTrigger ns d.name] := by
  simp only [restartNonOlmDeployments]
  cases rb.restartCompleteErr with
  | some e => exact pre_nil _
  | none =>
    cases rb.restartValidateErr with
    | some e => exact pre_nil _
    | none =>
      cases rb.restartRunErr d.name with
      | some e => exact pre_refl _
      | none => exact pre_refl _

/-- On an `ok` outcome the non-OLM restart performed exactly one trigger
event. -/
theorem restartNonOlm_ok_trace (rb : RolloutBehavior) (ns : String)
    (d : Deployment)
    (h : (restartNonOlmDeployments rb ns d).1 = Outcome.ok) :
    (restartNonOlmDeployments rb ns d).2 =
      [Event.restartTrigger ns d.name] := by
  simp only [restartNonOlmDeployments] at h ⊢
  cases h1 : rb.restartCompleteErr with
  | some e => simp [h1] at h
  | none =>
    simp only [h1] at h ⊢
    cases h2 : rb.restartValidateErr with
    | some e => simp [h2] at h
    | none =>
      simp only [h2] at h ⊢
      cases h3 : rb.restartRunErr d.name with
      | some e => simp only [h3]
      | none => simp only [h3]

/-- The recycle of one deployment produces a prefix of its recycle
block. -/
theorem deletePods_trace_le (beh : ClientBehavior) (rb : RolloutBehavior)
    (st : ClusterState) (d : Deployment) (ns : String) :
    (deletePods beh rb st d ns).2 <+: recycleBlock st ns d := by
  simp only [deletePods]
  cases beh.listPodsErr d.name with
  | some e => exact pre_nil _
  | none =>
    exact seqTrace_trace_le _ (deletePodsLoop_ok_trace beh _)
      (deletePodsLoop_trace_le beh _) (checkRolloutStatus_trace_le rb ns)

/-- On an `ok` outcome, one deployment's recycle realises its recycle
block exactly. -/
theorem deletePods_ok_trace (beh : ClientBehavior) (rb : RolloutBehavior)
    (st : ClusterState) (d : Deployment) (ns : String)
    (h : (deletePods beh rb st d ns).1 = Outcome.ok) :
    (deletePods beh rb st d ns).2 = recycleBlock st ns d := by
  simp only [deletePods] at h ⊢
  cases h1 : beh.listPodsErr d.name with
  | some e => simp [h1] at h
  | none =>
    simp only [h1] at h ⊢
    exact seqTrace_ok_trace _ (deletePodsLoop_ok_trace beh _)
      (checkRolloutStatus_ok_trace rb ns) h

/-- The OLM recycle loop produces a prefix of the recycle plan of its
deployment list. -/
theorem forEachOlm_trace_le (beh : ClientBehavior) (rb : RolloutBehavior)
    (st : ClusterState) (ns : String) (ds : List Deployment) :
    (forEachOlm beh rb st ns ds).2 <+: recyclePlan st ns ds := by
  induction ds with
  | nil => exact pre_nil _
  | cons d rest ih =>
    simp only [forEachOlm]
    exact seqTrace_trace_le _ (deletePods_ok_trace beh rb st d ns)
      (deletePods_trace_le beh rb st d ns) ih

/-- On an `ok` outcome the OLM recycle loop realises the whole recycle
plan. -/
theorem forEachOlm_ok_trace (beh : ClientBehavior) (rb : RolloutBehavior)
    (st : ClusterState) (ns : String) (ds : List Deployment)
    (h : (forEachOlm beh rb st ns ds).1 = Outcome.ok) :
    (forEachOlm beh rb st ns ds).2 = recyclePlan st ns ds := by
  induction ds with
  | nil => rfl
  | cons d rest ih =>
    simp only [forEachOlm] at h ⊢
    exact seqTrace_ok_trace _ (deletePods_ok_trace beh rb st d ns) ih h

/-- The non-OLM restart loop produces a prefix of the restart plan of its
deployment list. -/
theorem forEachNonOlm_trace_le (rb : RolloutBehavior) (ns : String)
    (ds : List Deployment) :
    (forEachNonOlm rb ns ds).2 <+: restartPlan ns ds := by
  induction ds with
  | nil => exact pre_nil _
  | cons d rest ih =>
    simp only [forEachNonOlm]
    show (seqTrace (restartNonOlmDeployments rb ns d)
        (seqTrace (checkRolloutStatus rb ns) (forEachNonOlm rb ns rest))).2 <+:
      [Event.restartTrigger ns d.name] ++
        ([Event.waitRollout ns fixedSelector] ++ restartPlan ns rest)
    exact seqTrace_trace_le _ (restartNonOlm_ok_trace rb ns d)
      (restartNonOlm_trace_le rb ns d)
      (seqTrace_trace_le _ (checkRolloutStatus_ok_trace rb ns)
        (checkRolloutStatus_trace_le rb ns) ih)

/-- On an `ok` outcome the non-OLM restart loop realises the whole
restart plan. -/
theorem forEachNonOlm_ok_trace (rb : RolloutBehavior) (ns : String)
    (ds : List Deployment)
    (h : (forEachNonOlm rb ns ds).1 = Outcome.ok) :
    (forEachNonOlm rb ns ds).2 = restartPlan ns ds := by
  induction ds with
  | nil => rfl
  | cons d rest ih =>
    simp only [forEachNonOlm] at h ⊢
    show (seqTrace (restartNonOlmDeployments rb ns d)
        (seqTrace (checkRolloutStatus rb ns) (forEachNonOlm rb ns rest))).2 =
      [Event.restartTrigger ns d.name] ++
        ([Event.waitRollout ns fixedSelector] ++ restartPlan ns rest)
    exact seqTrace_ok_trace _ (restartNonOlm_ok_trace rb ns d)
      (seqTrace_ok_trace _ (checkRolloutStatus_ok_trace rb ns) ih) h

/-- The orchestration's trace is always a prefix of the ideal plan. -/
theorem restartDeployment_trace_le (beh : ClientBehavior)
    (rb : RolloutBehavior) (st : ClusterState) (ns : String) :
    (restartDeployment beh rb st ns).2 <+: orchestrationPlan st ns := by
  simp only [restartDeployment, getExistingDeployments]
  cases beh.listOlmErr with
  | some e => exact pre_nil _
  | none =>
    cases beh.listNonOlmErr with
    | some e => exact pre_nil _
    | none =>
      exact seqTrace_trace_le _
        (forEachOlm_ok_trace beh rb st ns (olmFilter st))
        (forEachOlm_trace_le beh rb st ns (olmFilter st))
        (forEachNonOlm_trace_le rb ns (nonOlmFilter st))

/-- On an `ok` outcome the orchestration realises the ideal plan
exactly. -/
theorem restartDeployment_ok_trace (beh : ClientBehavior)
    (rb : RolloutBehavior) (st : ClusterState) (ns : String)
    (h : (restartDeployment beh rb st ns).1 = Outcome.ok) :
    (restartDeployment beh rb st ns).2 = orchestrationPlan st ns := by
  simp only [restartDeployment, getExistingDeployments] at h ⊢
  cases h1 : beh.listOlmErr with
  | some e => simp [h1] at h
  | none =>
    simp only [h1] at h ⊢
    cases h2 : beh.listNonOlmErr with
    | some e => simp [h2] at h
    | none =>
      simp only [h2] at h ⊢
      exact seqTrace_ok_trace _
        (forEachOlm_ok_trace beh rb st ns (olmFilter st))
        (forEachNonOlm_ok_trace rb ns (nonOlmFilter st)) h

/-- Every rollout-wait event inside a recycle block carries the block's
namespace and the fixed provider selector. -/
theorem recycleBlock_wait_fixed (st : ClusterState) (ns n s : String)
    (d : Deployment)
    (h : Event.waitRollout n s ∈ recycleBlock st ns d) :
    n = ns ∧ s = fixedSelector := by
  simp only [recycleBlock, deletionEvents, List.mem_append, List.mem_map,
    List.mem_singleton] at h
  rcases h with ⟨p, _, hp⟩ | h
  · exact absurd hp (by simp)
  · exact ⟨(Event.waitRollout.injEq _ _ _ _).mp h.symm |>.1.symm,
      (Event.waitRollout.injEq _ _ _ _).mp h.symm |>.2.symm⟩

/-- Every rollout-wait event inside a restart block carries the block's
namespace and the fixed provider selector. -/
theorem restartBlock_wait_fixed (ns n s : String) (d : Deployment)
    (h : Event.waitRollout n s ∈ restartBlock ns d) :
    n = ns ∧ s = fixedSelector := by
  simp only [restartBlock, List.mem_cons, List.mem_singleton,
    List.not_mem_nil, or_false] at h
  rcases h with h | h
  · exact absurd h (by simp)
  · exact ⟨(Event.waitRollout.injEq _ _ _ _).mp h |>.1,
      (Event.waitRollout.injEq _ _ _ _).mp h |>.2⟩

/-- Every rollout-wait event of the ideal plan carries the run's
namespace and the fixed provider selector. -/
theorem plan_wait_fixed (st : ClusterState) (ns n s : String)
    (h : Event.waitRollout n s ∈ orchestrationPlan st ns) :
    n = ns ∧ s = fixedSelector := by
  rcases List.mem_append.mp h with h' | h'
  · obtain ⟨l, hl, hel⟩ := List.mem_flatten.mp h'
    obtain ⟨d, _, rfl⟩ := List.mem_map.mp hl
    exact recycleBlock_wait_fixed st ns n s d hel
  · obtain ⟨l, hl, hel⟩ := List.mem_flatten.mp h'
    obtain ⟨d, _, rfl⟩ := List.mem_map.mp hl
    exact restartBlock_wait_fixed ns n s d hel

/-- C4: if the deletion of the k-th pod of a deployment fails (every
earlier deletion succeeding), `deletePods` returns that error having
deleted exactly the earlier pods — no later pod of that deployment is
deleted and no rollout-status wait is performed for it — and the recycle
loop containing that deployment stops there with the same error and
trace: no subsequent deployment of the recycle phase contributes any
action. -/
theorem delete_failure_aborts (beh : ClientBehavior) (rb : RolloutBehavior)
    (st : ClusterState) (ns e : String) (d : Deployment)
    (ds : List Deployment) (good rest : List Pod) (p : Pod)
    (hlist : beh.listPodsErr d.name = none)
    (hsel : selectedPods st d = good ++ p :: rest)
    (hgood : ∀ q ∈ good, beh.deleteErr q.name = none)
    (hfail : beh.deleteErr p.name = some e) :
    deletePods beh rb st d ns = (Outcome.err e, deletionEvents good) ∧
    forEachOlm beh rb st ns (d :: ds) =
      (Outcome.err e, deletionEvents good) := by
  have hdp : deletePods beh rb st d ns =
      (Outcome.err e, deletionEvents good) := by
    unfold deletePods
    rw [hlist, hsel, deletePodsLoop_fail beh e good rest p hgood hfail]
    rfl
  refine ⟨hdp, ?_⟩
  simp only [forEachOlm]
  rw [hdp]
  rfl

/-- Witness for C4: with three pods where the second deletion fails, only
the first pod is deleted, no wait happens, and a following deployment
would not be processed. -/
theorem delete_failure_aborts_witness :
    deletePods failSecondDelete noFailRollout demoState hostOperator
      "host-operator-ns" = (Outcome.err "boom", deletionEvents [hostPod1]) ∧
    forEachOlm failSecondDelete noFailRollout demoState "host-operator-ns"
      [hostOperator] = (Outcome.err "boom", deletionEvents [hostPod1]) :=
  delete_failure_aborts failSecondDelete noFailRollout demoState
    "host-operator-ns" "boom" hostOperator [] [hostPod1] [hostPod3] hostPod2
    rfl (by decide) (by decide) (by decide)

/-- C6: the orchestration's event trace is always a prefix of the ideal
plan — every lifecycle-managed recycle block (its pod deletions then its
rollout wait) completes before the next one starts, all of them precede
every directly-owned restart block, and each restart trigger is followed
by its rollout wait before the next trigger — and on a fully successful
run the trace is exactly that plan. -/
theorem orchestration_ordering (beh : ClientBehavior) (rb : RolloutBehavior)
    (st : ClusterState) (ns : String) :
    (restartDeployment beh rb st ns).2 <+: orchestrationPlan st ns ∧
    ((restartDeployment beh rb st ns).1 = Outcome.ok →
      (restartDeployment beh rb st ns).2 = orchestrationPlan st ns) :=
  ⟨restartDeployment_trace_le beh rb st ns,
   restartDeployment_ok_trace beh rb st ns⟩

/-- Witness for C6 at the concrete all-success scenario. -/
theorem orchestration_ordering_witness :
    (restartDeployment noFailClient noFailRollout demoState
      "host-operator-ns").2 = orchestrationPlan demoState "host-operator-ns" :=
  (orchestration_ordering noFailClient noFailRollout demoState
    "host-operator-ns").2 (by decide)

/-- C8: every rollout-status wait performed during an orchestration run,
regardless of which deployment was just recycled or restarted, uses the
run's namespace and the fixed provider label selector
`provider=codeready-toolchain`, never the deployment's own selector. -/
theorem rollout_wait_uses_fixed_selector (beh : ClientBehavior)
    (rb : RolloutBehavior) (st : ClusterState) (ns n s : String)
    (h : Event.waitRollout n s ∈ (restartDeployment beh rb st ns).2) :
    n = ns ∧ s = fixedSelector :=
  plan_wait_fixed st ns n s
    (mem_of_pre (restartDeployment_trace_le beh rb st ns) h)

/-- Witness for C8 at a concrete wait event of the scenario run. -/
theorem rollout_wait_uses_fixed_selector_witness :
    "host-operator-ns" = "host-operator-ns" ∧
    "provider=codeready-toolchain" = fixedSelector :=
  rollout_wait_uses_fixed_selector noFailClient noFailRollout demoState
    "host-operator-ns" "host-operator-ns" "provider=codeready-toolchain"
    (by decide)
